import Mathlib

/-!
Shallow embedding of the ACC project-management synchronization core:
the hash/diff engine, the merge/upsert logic of `processRfi` and
`processSubmittal` in `enhancedSyncService.ts`, the response dispatch and
manual-response confirmation workflow of `responseService.ts`, the
assignment/deadline logic of `rfiService.ts` / `submittalService.ts` /
`workflowService.ts`, and the status state machine `canTransitionStatus`.

Timestamps are modelled as integers (milliseconds since epoch).  Optional
JavaScript values (`undefined`) are modelled with `Option`; JavaScript
string truthiness (empty string is falsy) is made explicit where the
source relies on it.
-/

namespace ACCPM

abbrev Time := Int

/-- JavaScript `a || b` on optional strings: `undefined` and the empty
string are falsy and fall through to `b`. -/
def jsOr (a b : Option String) : Option String :=
  match a with
  | some s => if s = "" then b else some s
  | none => b

/-- JavaScript `a || b` where the fallback is a plain string. -/
def jsOrD (a : Option String) (b : String) : String :=
  match a with
  | some s => if s = "" then b else s
  | none => b

/-- JavaScript truthiness test for an optional string used as a boolean
(`!x` is true exactly when `x` is `undefined` or the empty string). -/
def jsFalsyStr : Option String → Bool
  | none => true
  | some s => s == ""

/-! ## Hash/Diff engine: `hashAccData` (enhancedSyncService.ts)

The source builds `relevantData` by reading seven named properties off the
dynamic payload object and digests `JSON.stringify(relevantData)` with
SHA-256.  The payload is modelled as an ordered field list (the shape of a
JavaScript object), property access as association-list lookup.  The SHA-256
digest of the canonical serialization is deterministic in the projected
fields and is idealized as collision-free, so the digest is modelled by the
canonical projection itself: digest equality coincides with equality of the
projected fields, independent of the order or presence of other fields. -/

/-- A dynamic external payload: an ordered list of named string fields. -/
structure AccPayload where
  fields : List (String × String)
deriving DecidableEq, Repr

/-- Property access on a dynamic payload: first binding of the key wins,
a missing key reads as `undefined`. -/
def getField (p : AccPayload) (k : String) : Option String :=
  (p.fields.find? (fun kv => kv.fst == k)).map (fun kv => kv.snd)

/-- The canonical projection `relevantData` of `hashAccData`, with the
fixed key order of the source object literal. -/
structure RelevantData where
  status : Option String
  dueDate : Option String
  title : Option String
  description : Option String
  priority : Option String
  assignedTo : Option String
  updatedAt : Option String
deriving DecidableEq, Repr

/-- The seven payload fields projected by `hashAccData`. -/
def projectedKeys : List String :=
  ["status", "dueDate", "title", "description", "priority", "assignedTo", "updatedAt"]

/-- `hashAccData`: digest of the canonical projection of the payload
(idealized collision-free SHA-256, see the section comment). -/
def hashAccData (p : AccPayload) : RelevantData :=
  { status := getField p "status"
    dueDate := getField p "dueDate"
    title := getField p "title"
    description := getField p "description"
    priority := getField p "priority"
    assignedTo := getField p "assignedTo"
    updatedAt := getField p "updatedAt" }

/-! ## Merge/upsert engine: `processRfi` and `processSubmittal`
(enhancedSyncService.ts)

The external item is modelled as a structured payload (the fields the sync
code reads), the stored fingerprint `accDataHash` as the canonical
projection of the item (same idealization as `hashAccData` above), and the
Prisma upsert as a pure function from the optional existing record and the
item to the written record.  A Prisma update value of `undefined` means
"do not touch the column" and is modelled by keeping the existing field. -/

/-- The nested `response` object of an external item. -/
structure AccResponse where
  status : Option String
  text : Option String
  respondedBy : Option String
  respondedAt : Option String
deriving DecidableEq, Repr

/-- A structured external RFI/Submittal payload (the properties read by
`processRfi` / `processSubmittal`). -/
structure AccItem where
  id : String
  number : Option String
  title : Option String
  discipline : Option String
  specSection : Option String
  packageNumber : Option String
  status : Option String
  priority : Option String
  createdBy : Option String
  assignedTo : Option (List String)
  dueDate : Option Time
  description : Option String
  contractorComments : Option String
  createdAt : Time
  updatedAt : Option Time
  response : Option AccResponse
deriving DecidableEq, Repr

/-- The stored content fingerprint of an item: the canonical projection of
the seven fields digested by `hashAccData` (idealized SHA-256). -/
structure ItemFingerprint where
  status : Option String
  dueDate : Option Time
  title : Option String
  description : Option String
  priority : Option String
  assignedTo : Option (List String)
  updatedAt : Option Time
deriving DecidableEq, Repr

/-- `hashAccData` applied to a structured item. -/
def hashAccItem (item : AccItem) : ItemFingerprint :=
  { status := item.status
    dueDate := item.dueDate
    title := item.title
    description := item.description
    priority := item.priority
    assignedTo := item.assignedTo
    updatedAt := item.updatedAt }

/-- The captured manual-response payload
`{status, text, respondedBy, respondedAt, detectedAt}`. -/
structure ManualSnapshot where
  status : Option String
  text : Option String
  respondedBy : Option String
  respondedAt : Option String
  detectedAt : Time
deriving DecidableEq, Repr

/-- The structured change summary produced by `detectChanges`: per field an
optional (old, new) pair. -/
structure ChangeSummary where
  status : Option (Option String × Option String)
  title : Option (String × Option String)
  dueDate : Option (Option Time × Option Time)
  priority : Option (Option String × Option String)
deriving DecidableEq, Repr

/-- A `StatusHistory` row. -/
structure HistoryEntry where
  fieldName : String
  oldValue : Option String
  newValue : Option String
  changedBy : Option String
  changeReason : Option String
deriving DecidableEq, Repr

/-- The local mirrored RFI record (the columns touched or framed by the
operations under verification). -/
structure RfiRec where
  accRfiId : String
  accNumber : String
  -- externally-owned columns, overwritten on every sync
  title : String
  discipline : Option String
  accStatus : Option String
  priority : Option String
  accCreatedBy : Option String
  accAssignedTo : List String
  accDueDate : Option Time
  accDescription : Option String
  accContractorComments : Option String
  accCreatedAt : Time
  accUpdatedAt : Time
  accDataHash : ItemFingerprint
  -- internally-owned columns, never written by sync
  internalStatus : String
  responseStatus : Option String
  responseText : Option String
  responseSentAt : Option Time
  responseSentBy : Option String
  reviewDeadline : Option Time
  qcDeadline : Option Time
  assignments : List String
  comments : List String
  -- sync metadata
  hasUnacknowledgedChange : Bool
  lastAccChangeAt : Option Time
  changesSummary : Option ChangeSummary
  hasManualResponse : Bool
  manualResponseDetectedAt : Option Time
  manualResponseData : Option ManualSnapshot
  manualResponseConfirmedBy : Option String
  manualResponseConfirmedAt : Option Time
  firstSeenAt : Time
  lastSeenAt : Time
deriving DecidableEq, Repr

/-- The local mirrored Submittal record (structurally the RFI record with
`specSection` / `packageNumber` in place of `discipline`). -/
structure SubmittalRec where
  accSubmittalId : String
  accNumber : String
  title : String
  specSection : Option String
  packageNumber : Option String
  accStatus : Option String
  priority : Option String
  accCreatedBy : Option String
  accAssignedTo : List String
  accDueDate : Option Time
  accDescription : Option String
  accContractorComments : Option String
  accCreatedAt : Time
  accUpdatedAt : Time
  accDataHash : ItemFingerprint
  internalStatus : String
  responseStatus : Option String
  responseText : Option String
  responseSentAt : Option Time
  responseSentBy : Option String
  reviewDeadline : Option Time
  qcDeadline : Option Time
  assignments : List String
  comments : List String
  hasUnacknowledgedChange : Bool
  lastAccChangeAt : Option Time
  changesSummary : Option ChangeSummary
  hasManualResponse : Bool
  manualResponseDetectedAt : Option Time
  manualResponseData : Option ManualSnapshot
  manualResponseConfirmedBy : Option String
  manualResponseConfirmedAt : Option Time
  firstSeenAt : Time
  lastSeenAt : Time
deriving DecidableEq, Repr

/-- `detectChanges` for RFIs: field-by-field old/new deltas over
status, title, dueDate, priority. -/
def detectChanges (existing : RfiRec) (item : AccItem) : ChangeSummary :=
  { status := if existing.accStatus ≠ item.status
      then some (existing.accStatus, item.status) else none
    title := if some existing.title ≠ item.title
      then some (existing.title, item.title) else none
    dueDate := if existing.accDueDate ≠ item.dueDate
      then some (existing.accDueDate, item.dueDate) else none
    priority := if existing.priority ≠ item.priority
      then some (existing.priority, item.priority) else none }

/-- `detectChanges` for Submittals. -/
def detectChangesSub (existing : SubmittalRec) (item : AccItem) : ChangeSummary :=
  { status := if existing.accStatus ≠ item.status
      then some (existing.accStatus, item.status) else none
    title := if some existing.title ≠ item.title
      then some (existing.title, item.title) else none
    dueDate := if existing.accDueDate ≠ item.dueDate
      then some (existing.accDueDate, item.dueDate) else none
    priority := if existing.priority ≠ item.priority
      then some (existing.priority, item.priority) else none }

/-- The manual-response detection guard on the payload side:
`accRfi.response && accRfi.response.text` (a non-empty response text). -/
def payloadResponse (item : AccItem) : Option AccResponse :=
  match item.response with
  | some r =>
    match r.text with
    | some t => if t = "" then none else some r
    | none => none
  | none => none

/-- Result of processing one item: the written record, whether it was
newly created, and the appended history rows. -/
structure SyncStep (α : Type) where
  record : α
  isNew : Bool
  history : List HistoryEntry
deriving DecidableEq, Repr

/-- `processRfi`: change detection, manual-response detection, and the
upsert (create or update) of the mirrored RFI record.  The create branch
writes only the listed columns; the remaining columns take their Prisma
schema defaults (internal status UNASSIGNED, no flags, empty relations). -/
def processRfi (existing : Option RfiRec) (item : AccItem) (now : Time) :
    SyncStep RfiRec :=
  let accDataHash := hashAccItem item
  match existing with
  | none =>
    { record :=
      { accRfiId := item.id
        accNumber := jsOrD item.number item.id
        title := jsOrD item.title "Untitled RFI"
        discipline := item.discipline
        accStatus := item.status
        priority := item.priority
        accCreatedBy := item.createdBy
        accAssignedTo := item.assignedTo.getD []
        accDueDate := item.dueDate
        accDescription := item.description
        accContractorComments := item.contractorComments
        accCreatedAt := item.createdAt
        accUpdatedAt := item.updatedAt.getD item.createdAt
        accDataHash := accDataHash
        internalStatus := "UNASSIGNED"
        responseStatus := none
        responseText := none
        responseSentAt := none
        responseSentBy := none
        reviewDeadline := none
        qcDeadline := none
        assignments := []
        comments := []
        hasUnacknowledgedChange := false
        lastAccChangeAt := none
        changesSummary := none
        hasManualResponse := false
        manualResponseDetectedAt := none
        manualResponseData := none
        manualResponseConfirmedBy := none
        manualResponseConfirmedAt := none
        firstSeenAt := now
        lastSeenAt := now }
      isNew := true
      history := [] }
  | some ex =>
    let hasUnack : Bool := decide (ex.accDataHash ≠ accDataHash)
    let hasManual : Bool := (payloadResponse item).isSome && ex.responseSentAt.isNone
    let snapshot : Option ManualSnapshot :=
      match payloadResponse item, ex.responseSentAt with
      | some r, none => some
        { status := jsOr r.status item.status
          text := r.text
          respondedBy := r.respondedBy
          respondedAt := r.respondedAt
          detectedAt := now }
      | _, _ => none
    { record :=
      { ex with
        title := jsOrD item.title "Untitled RFI"
        discipline := item.discipline
        accStatus := item.status
        priority := item.priority
        accCreatedBy := item.createdBy
        accAssignedTo := item.assignedTo.getD []
        accDueDate := item.dueDate
        accDescription := item.description
        accContractorComments := item.contractorComments
        accUpdatedAt := item.updatedAt.getD item.createdAt
        accDataHash := accDataHash
        hasUnacknowledgedChange := hasUnack
        lastAccChangeAt := if hasUnack then some now else ex.lastAccChangeAt
        changesSummary := if hasUnack then some (detectChanges ex item)
          else ex.changesSummary
        hasManualResponse := if hasManual then true else ex.hasManualResponse
        manualResponseDetectedAt := if hasManual then some now
          else ex.manualResponseDetectedAt
        manualResponseData := if hasManual then snapshot
          else ex.manualResponseData
        lastSeenAt := now }
      isNew := false
      history := if hasUnack then
        [{ fieldName := "accData"
           oldValue := ex.accStatus
           newValue := item.status
           changedBy := none
           changeReason := some "ACC sync detected change" }]
        else [] }

/-- `processSubmittal`: same logic as `processRfi` on the Submittal record. -/
def processSubmittal (existing : Option SubmittalRec) (item : AccItem)
    (now : Time) : SyncStep SubmittalRec :=
  let accDataHash := hashAccItem item
  match existing with
  | none =>
    { record :=
      { accSubmittalId := item.id
        accNumber := jsOrD item.number item.id
        title := jsOrD item.title "Untitled Submittal"
        specSection := item.specSection
        packageNumber := item.packageNumber
        accStatus := item.status
        priority := item.priority
        accCreatedBy := item.createdBy
        accAssignedTo := item.assignedTo.getD []
        accDueDate := item.dueDate
        accDescription := item.description
        accContractorComments := item.contractorComments
        accCreatedAt := item.createdAt
        accUpdatedAt := item.updatedAt.getD item.createdAt
        accDataHash := accDataHash
        internalStatus := "UNASSIGNED"
        responseStatus := none
        responseText := none
        responseSentAt := none
        responseSentBy := none
        reviewDeadline := none
        qcDeadline := none
        assignments := []
        comments := []
        hasUnacknowledgedChange := false
        lastAccChangeAt := none
        changesSummary := none
        hasManualResponse := false
        manualResponseDetectedAt := none
        manualResponseData := none
        manualResponseConfirmedBy := none
        manualResponseConfirmedAt := none
        firstSeenAt := now
        lastSeenAt := now }
      isNew := true
      history := [] }
  | some ex =>
    let hasUnack : Bool := decide (ex.accDataHash ≠ accDataHash)
    let hasManual : Bool := (payloadResponse item).isSome && ex.responseSentAt.isNone
    let snapshot : Option ManualSnapshot :=
      match payloadResponse item, ex.responseSentAt with
      | some r, none => some
        { status := jsOr r.status item.status
          text := r.text
          respondedBy := r.respondedBy
          respondedAt := r.respondedAt
          detectedAt := now }
      | _, _ => none
    { record :=
      { ex with
        title := jsOrD item.title "Untitled Submittal"
        specSection := item.specSection
        packageNumber := item.packageNumber
        accStatus := item.status
        priority := item.priority
        accCreatedBy := item.createdBy
        accAssignedTo := item.assignedTo.getD []
        accDueDate := item.dueDate
        accDescription := item.description
        accContractorComments := item.contractorComments
        accUpdatedAt := item.updatedAt.getD item.createdAt
        accDataHash := accDataHash
        hasUnacknowledgedChange := hasUnack
        lastAccChangeAt := if hasUnack then some now else ex.lastAccChangeAt
        changesSummary := if hasUnack then some (detectChangesSub ex item)
          else ex.changesSummary
        hasManualResponse := if hasManual then true else ex.hasManualResponse
        manualResponseDetectedAt := if hasManual then some now
          else ex.manualResponseDetectedAt
        manualResponseData := if hasManual then snapshot
          else ex.manualResponseData
        lastSeenAt := now }
      isNew := false
      history := if hasUnack then
        [{ fieldName := "accData"
           oldValue := ex.accStatus
           newValue := item.status
           changedBy := none
           changeReason := some "ACC sync detected change" }]
        else [] }

/-- `acknowledgeAccChanges` (rfiService.ts): the explicit user action that
clears the unacknowledged-change flag. -/
def acknowledgeAccChanges (rfi : RfiRec) : RfiRec :=
  { rfi with hasUnacknowledgedChange := false }

/-! ## Response dispatcher and confirmation workflow (responseService.ts)

External side effects (token fetch, ACC status update, ACC response post,
file read + attachment upload) are modelled by an environment of `Except`
results; the database writes by the returned record and appended audit,
warning and history lists.  A thrown error is the `Except.error` result. -/

deriving instance DecidableEq for Except

/-- A project membership row as read by the permission checks. -/
structure Membership where
  role : String
  canSendToAcc : Bool
deriving DecidableEq, Repr

/-- The send-response request body. -/
structure SendDto where
  responseStatus : Option String
  responseText : Option String
  selectedFilePaths : List String
deriving DecidableEq, Repr

/-- An external-platform call attempted during response dispatch. -/
inductive ExtCall where
  | updateStatus
  | postResponse
  | uploadAttachment (file : String)
deriving DecidableEq, Repr

/-- Results of the external capabilities for one dispatch. -/
structure ExtEnv where
  tokenResult : Except String String
  statusResult : Except String Unit
  responseResult : Except String Unit
  fileResult : String → Except String Unit

/-- The JSON detail blob of an audit entry. -/
inductive AuditDetail where
  | sent (responseStatus : Option String) (fileCount : Nat) (files : List String)
  | sendFailed (message : String)
  | confirmedManual (status : Option String) (respondedBy : Option String)
      (respondedAt : Option String) (confirmedAt : Time)
deriving DecidableEq, Repr

/-- An append-only audit-log row. -/
structure AuditEntry where
  userId : String
  action : String
  detail : AuditDetail
deriving DecidableEq, Repr

/-- A warning logged for an unauthorized attempt (actor and role). -/
structure WarnLog where
  userId : String
  role : String
deriving DecidableEq, Repr

/-- `path.basename`. -/
def baseName (p : String) : String :=
  (p.splitOn "/").getLastD p

/-- The per-file loop of step 3: read the file bytes and upload the
attachment; the first failure is rethrown as a wrapped message and aborts
the remaining uploads. -/
def runFileUploads (fileResult : String → Except String Unit) :
    List String → List ExtCall × Option String
  | [] => ([], none)
  | p :: rest =>
    match fileResult p with
    | .ok _ =>
      let r := runFileUploads fileResult rest
      (ExtCall.uploadAttachment (baseName p) :: r.fst, r.snd)
    | .error _ =>
      ([ExtCall.uploadAttachment (baseName p)],
        some ("Failed to upload file: " ++ baseName p))

/-- The external side effects of the try block, in source order: token
fetch, status push, response post, per-file uploads.  Returns the attempted
calls and the first error, if any. -/
def runExternalPhase (env : ExtEnv) (paths : List String) :
    List ExtCall × Option String :=
  match env.tokenResult with
  | .error e => ([], some e)
  | .ok _ =>
    match env.statusResult with
    | .error e => ([ExtCall.updateStatus], some e)
    | .ok _ =>
      match env.responseResult with
      | .error e => ([ExtCall.updateStatus, ExtCall.postResponse], some e)
      | .ok _ =>
        let r := runFileUploads env.fileResult paths
        (ExtCall.updateStatus :: ExtCall.postResponse :: r.fst, r.snd)

/-- Outcome of a response dispatch: thrown error or returned record, the
final local record, and the produced side-effect rows. -/
structure SendOutcome (α : Type) where
  result : Except String α
  record : α
  externalCalls : List ExtCall
  audit : List AuditEntry
  warnings : List WarnLog
  history : List HistoryEntry
deriving DecidableEq

/-- JavaScript `String.prototype.trim`: strip leading and trailing
whitespace (modelled over the character list so that it evaluates in the
kernel). -/
def jsTrim (s : String) : String :=
  ⟨((s.data.dropWhile Char.isWhitespace).reverse.dropWhile
      Char.isWhitespace).reverse⟩

/-- `!data.responseText || data.responseText.trim().length === 0`. -/
def blankText : Option String → Bool
  | none => true
  | some s => jsTrim s == ""

/-- `sendRfiResponseToAcc`: authorization, validation, external side
effects in order, then the local update plus audit and history rows; any
failure inside the try block writes a SEND_TO_ACC_FAILED audit entry and
rethrows without touching the record. -/
def sendRfiResponseToAcc (rfi : RfiRec) (membership : Option Membership)
    (d : SendDto) (env : ExtEnv) (userId : String) (now : Time) :
    SendOutcome RfiRec :=
  let reject (msg : String) (w : List WarnLog) : SendOutcome RfiRec :=
    { result := .error msg, record := rfi, externalCalls := [],
      audit := [], warnings := w, history := [] }
  let fail (msg : String) (calls : List ExtCall) : SendOutcome RfiRec :=
    { result := .error msg, record := rfi, externalCalls := calls,
      audit := [{ userId := userId, action := "SEND_TO_ACC_FAILED",
                  detail := .sendFailed msg }],
      warnings := [], history := [] }
  match membership with
  | none => reject "User is not a member of this project" []
  | some m =>
    if m.role = "PROJECT_ADMIN" ∨ m.canSendToAcc = true then
      if jsFalsyStr d.responseStatus then
        reject "Response status is required" []
      else if blankText d.responseText then
        reject "Response text is required" []
      else if d.selectedFilePaths.isEmpty then
        reject "At least one file must be selected" []
      else
        match runExternalPhase env d.selectedFilePaths with
        | (calls, some e) => fail e calls
        | (calls, none) =>
          let updated := { rfi with
            responseStatus := d.responseStatus
            responseText := d.responseText
            responseSentAt := some now
            responseSentBy := some userId
            internalStatus := "SENT_TO_ACC" }
          { result := .ok updated
            record := updated
            externalCalls := calls
            audit := [{ userId := userId, action := "SEND_TO_ACC",
                        detail := .sent d.responseStatus d.selectedFilePaths.length
                          (d.selectedFilePaths.map baseName) }]
            warnings := []
            history := [{ fieldName := "responseStatus", oldValue := none,
                          newValue := d.responseStatus, changedBy := some userId,
                          changeReason := some "Official response sent to ACC" }] }
    else
      reject "Only project admins are authorized to send responses to ACC"
        [{ userId := userId, role := m.role }]

/-- `sendSubmittalResponseToAcc`: same flow on the Submittal record. -/
def sendSubmittalResponseToAcc (sub : SubmittalRec) (membership : Option Membership)
    (d : SendDto) (env : ExtEnv) (userId : String) (now : Time) :
    SendOutcome SubmittalRec :=
  let reject (msg : String) (w : List WarnLog) : SendOutcome SubmittalRec :=
    { result := .error msg, record := sub, externalCalls := [],
      audit := [], warnings := w, history := [] }
  let fail (msg : String) (calls : List ExtCall) : SendOutcome SubmittalRec :=
    { result := .error msg, record := sub, externalCalls := calls,
      audit := [{ userId := userId, action := "SEND_TO_ACC_FAILED",
                  detail := .sendFailed msg }],
      warnings := [], history := [] }
  match membership with
  | none => reject "User is not a member of this project" []
  | some m =>
    if m.role = "PROJECT_ADMIN" ∨ m.canSendToAcc = true then
      if jsFalsyStr d.responseStatus then
        reject "Response status is required" []
      else if blankText d.responseText then
        reject "Response text is required" []
      else if d.selectedFilePaths.isEmpty then
        reject "At least one file must be selected" []
      else
        match runExternalPhase env d.selectedFilePaths with
        | (calls, some e) => fail e calls
        | (calls, none) =>
          let updated := { sub with
            responseStatus := d.responseStatus
            responseText := d.responseText
            responseSentAt := some now
            responseSentBy := some userId
            internalStatus := "SENT_TO_ACC" }
          { result := .ok updated
            record := updated
            externalCalls := calls
            audit := [{ userId := userId, action := "SEND_TO_ACC",
                        detail := .sent d.responseStatus d.selectedFilePaths.length
                          (d.selectedFilePaths.map baseName) }]
            warnings := []
            history := [{ fieldName := "responseStatus", oldValue := none,
                          newValue := d.responseStatus, changedBy := some userId,
                          changeReason := some "Official response sent to ACC" }] }
    else
      reject "Only project admins are authorized to send responses to ACC"
        [{ userId := userId, role := m.role }]

/-- Outcome of a manual-response confirmation (no external calls occur). -/
structure ConfirmOutcome (α : Type) where
  result : Except String α
  record : α
  audit : List AuditEntry
  warnings : List WarnLog
  history : List HistoryEntry
deriving DecidableEq

/-- `confirmManualRfiResponse`: authorization, pending and not-yet-confirmed
checks, then stamp the confirmer, force CLOSED and copy the captured
status/text into the response fields.  `JSON.parse(data || "\x7b\x7d")` of
the structured snapshot cannot fail in the model; a missing payload parses
to the empty object, whose absent properties are skipped by the update. -/
def confirmManualRfiResponse (rfi : RfiRec) (membership : Option Membership)
    (userId : String) (now : Time) : ConfirmOutcome RfiRec :=
  let reject (msg : String) (w : List WarnLog) : ConfirmOutcome RfiRec :=
    { result := .error msg, record := rfi, audit := [], warnings := w, history := [] }
  match membership with
  | none => reject "User is not a member of this project" []
  | some m =>
    if m.role = "PROJECT_ADMIN" ∨ m.canSendToAcc = true then
      if !rfi.hasManualResponse then
        reject "RFI does not have a manual response to confirm" []
      else if rfi.manualResponseConfirmedAt.isSome then
        reject "Manual response has already been confirmed" []
      else
        let parsedStatus := rfi.manualResponseData.bind (fun s => s.status)
        let parsedText := rfi.manualResponseData.bind (fun s => s.text)
        let updated := { rfi with
          manualResponseConfirmedBy := some userId
          manualResponseConfirmedAt := some now
          internalStatus := "CLOSED"
          responseStatus := match parsedStatus with
            | some v => some v
            | none => rfi.responseStatus
          responseText := match parsedText with
            | some v => some v
            | none => rfi.responseText }
        { result := .ok updated
          record := updated
          audit := [{ userId := userId, action := "CONFIRM_MANUAL_RESPONSE",
                      detail := .confirmedManual parsedStatus
                        (rfi.manualResponseData.bind (fun s => s.respondedBy))
                        (rfi.manualResponseData.bind (fun s => s.respondedAt)) now }]
          warnings := []
          history := [{ fieldName := "internalStatus",
                        oldValue := some rfi.internalStatus, newValue := some "CLOSED",
                        changedBy := none,
                        changeReason := some "Manual response confirmed by admin" }] }
    else
      reject "Only project admins can confirm manual responses"
        [{ userId := userId, role := m.role }]

/-- `confirmManualSubmittalResponse`: same flow on the Submittal record. -/
def confirmManualSubmittalResponse (sub : SubmittalRec)
    (membership : Option Membership) (userId : String) (now : Time) :
    ConfirmOutcome SubmittalRec :=
  let reject (msg : String) (w : List WarnLog) : ConfirmOutcome SubmittalRec :=
    { result := .error msg, record := sub, audit := [], warnings := w, history := [] }
  match membership with
  | none => reject "User is not a member of this project" []
  | some m =>
    if m.role = "PROJECT_ADMIN" ∨ m.canSendToAcc = true then
      if !sub.hasManualResponse then
        reject "Submittal does not have a manual response to confirm" []
      else if sub.manualResponseConfirmedAt.isSome then
        reject "Manual response has already been confirmed" []
      else
        let parsedStatus := sub.manualResponseData.bind (fun s => s.status)
        let parsedText := sub.manualResponseData.bind (fun s => s.text)
        let updated := { sub with
          manualResponseConfirmedBy := some userId
          manualResponseConfirmedAt := some now
          internalStatus := "CLOSED"
          responseStatus := match parsedStatus with
            | some v => some v
            | none => sub.responseStatus
          responseText := match parsedText with
            | some v => some v
            | none => sub.responseText }
        { result := .ok updated
          record := updated
          audit := [{ userId := userId, action := "CONFIRM_MANUAL_RESPONSE",
                      detail := .confirmedManual parsedStatus
                        (sub.manualResponseData.bind (fun s => s.respondedBy))
                        (sub.manualResponseData.bind (fun s => s.respondedAt)) now }]
          warnings := []
          history := [{ fieldName := "internalStatus",
                        oldValue := some sub.internalStatus, newValue := some "CLOSED",
                        changedBy := none,
                        changeReason := some "Manual response confirmed by admin" }] }
    else
      reject "Only project admins can confirm manual responses"
        [{ userId := userId, role := m.role }]

/-! ## Workflow service: deadlines, assignment, status machine
(workflowService.ts, rfiService.ts, submittalService.ts) -/

/-- A per-priority deadline rule (percentages of the remaining time). -/
structure DeadlineRule where
  reviewPercent : Option Int
  qcPercent : Option Int
deriving DecidableEq, Repr

/-- JavaScript `a || b` on an optional number: `undefined` and `0` are
falsy and fall through to the default. -/
def jsOrNum (a : Option Int) (b : Int) : Int :=
  match a with
  | some n => if n = 0 then b else n
  | none => b

/-- `calculateInternalDeadlines`: review/QC deadlines as percentages of
the time remaining until the external due date; defaults 50 and 75 when no
per-priority rule applies.  JavaScript floating-point millisecond
arithmetic is modelled with integer division. -/
def calculateInternalDeadlines
    (deadlineRules : Option (List (String × DeadlineRule)))
    (accDueDate : Time) (priority : Option String) (now : Time) :
    Time × Time :=
  let defaults : Int × Int := (50, 75)
  let pcts : Int × Int :=
    match deadlineRules, priority with
    | some rules, some p =>
      if p = "" then defaults
      else
        match (rules.find? (fun kv => kv.fst == p.toLower)).map
            (fun kv => kv.snd) with
        | some rule => (jsOrNum rule.reviewPercent 50, jsOrNum rule.qcPercent 75)
        | none => defaults
    | _, _ => defaults
  let totalMs := accDueDate - now
  (now + totalMs * pcts.fst / 100, now + totalMs * pcts.snd / 100)

/-- Result of an assignment operation: the written record and the
appended history row (the assignment row itself is always created and is
modelled inside the record). -/
structure AssignStep (α : Type) where
  record : α
  history : List HistoryEntry
deriving DecidableEq

/-- `assignRfi`: create the assignment row, then, only when the record has
an external due date, compute the internal deadlines and force
ASSIGNED_FOR_REVIEW. -/
def assignRfi (rfi : RfiRec)
    (deadlineRules : Option (List (String × DeadlineRule)))
    (userName : String) (role : String) (assignedBy : String) (now : Time) :
    AssignStep RfiRec :=
  let label := role ++ ": " ++ userName
  let withAssignment := { rfi with assignments := rfi.assignments ++ [label] }
  let record :=
    match rfi.accDueDate with
    | some due =>
      let deadlines := calculateInternalDeadlines deadlineRules due rfi.priority now
      { withAssignment with
        reviewDeadline := some deadlines.fst
        qcDeadline := some deadlines.snd
        internalStatus := "ASSIGNED_FOR_REVIEW" }
    | none => withAssignment
  { record := record
    history := [{ fieldName := "assignment", oldValue := none,
                  newValue := some label, changedBy := some assignedBy,
                  changeReason := none }] }

/-- `assignSubmittal`: same flow on the Submittal record. -/
def assignSubmittal (sub : SubmittalRec)
    (deadlineRules : Option (List (String × DeadlineRule)))
    (userName : String) (role : String) (assignedBy : String) (now : Time) :
    AssignStep SubmittalRec :=
  let label := role ++ ": " ++ userName
  let withAssignment := { sub with assignments := sub.assignments ++ [label] }
  let record :=
    match sub.accDueDate with
    | some due =>
      let deadlines := calculateInternalDeadlines deadlineRules due sub.priority now
      { withAssignment with
        reviewDeadline := some deadlines.fst
        qcDeadline := some deadlines.snd
        internalStatus := "ASSIGNED_FOR_REVIEW" }
    | none => withAssignment
  { record := record
    history := [{ fieldName := "assignment", oldValue := none,
                  newValue := some label, changedBy := some assignedBy,
                  changeReason := none }] }

/-- The transition table of `canTransitionStatus` (`transitions[s] || []`). -/
def allowedTransitions (currentStatus : String) : List String :=
  if currentStatus = "UNASSIGNED" then ["ASSIGNED_FOR_REVIEW"]
  else if currentStatus = "ASSIGNED_FOR_REVIEW" then ["UNDER_REVIEW", "UNASSIGNED"]
  else if currentStatus = "UNDER_REVIEW" then ["UNDER_QC", "ASSIGNED_FOR_REVIEW"]
  else if currentStatus = "UNDER_QC" then ["READY_FOR_RESPONSE", "UNDER_REVIEW"]
  else if currentStatus = "READY_FOR_RESPONSE" then ["SENT_TO_ACC", "UNDER_QC"]
  else if currentStatus = "SENT_TO_ACC" then ["CLOSED"]
  else []

/-- `canTransitionStatus` (workflowService.ts): table lookup plus
role-based restrictions. -/
def canTransitionStatus (currentStatus newStatus userRole : String) : Bool :=
  if newStatus ∉ allowedTransitions currentStatus then false
  else if userRole = "VIEWER" then false
  else if userRole = "REVIEWER" ∧ (newStatus = "SENT_TO_ACC" ∨ newStatus = "CLOSED") then
    false
  else if userRole = "QC_REVIEWER" ∧ (newStatus = "SENT_TO_ACC" ∨ newStatus = "CLOSED") then
    false
  else true

/-! ## Concrete fixtures used by the evaluation theorems and witnesses -/

/-- A plain external item without a response payload. -/
def itemBase : AccItem :=
  { id := "R-1"
    number := some "R-0001"
    title := some "Clarify beam size"
    discipline := some "Structural"
    specSection := none
    packageNumber := none
    status := some "open"
    priority := some "HIGH"
    createdBy := some "ext-creator"
    assignedTo := some ["ext-user-1"]
    dueDate := some 1000
    description := some "Beam size unclear"
    contractorComments := none
    createdAt := 10
    updatedAt := some 20
    response := none }

/-- The same item carrying a manual response entered in ACC. -/
def itemResp : AccItem :=
  { itemBase with
    response := some { status := some "answered"
                       text := some "Approved"
                       respondedBy := some "ext-user-2"
                       respondedAt := some "2026-02-01" } }

/-- The manual response after being edited in ACC. -/
def itemRespV2 : AccItem :=
  { itemBase with
    response := some { status := some "answered"
                       text := some "Approved v2"
                       respondedBy := some "ext-user-2"
                       respondedAt := some "2026-02-02" } }

/-- The mirrored record created by the first sync of `itemBase`. -/
def exBase : RfiRec := (processRfi none itemBase 30).record

/-- The mirrored Submittal record created by the first sync. -/
def subBase : SubmittalRec := (processSubmittal none itemBase 30).record

/-- `exBase` with a still-unacknowledged change flag. -/
def exC1 : RfiRec := { exBase with hasUnacknowledgedChange := true }

/-- The record after the sync that first detects the manual response. -/
def exC2 : RfiRec := (processRfi (some exBase) itemResp 50).record

/-- A non-admin membership. -/
def memberReviewer : Membership := { role := "REVIEWER", canSendToAcc := false }

/-- An admin membership. -/
def memberAdmin : Membership := { role := "PROJECT_ADMIN", canSendToAcc := false }

/-- The record after the admin confirmed the manual response. -/
def exC3 : RfiRec :=
  (confirmManualRfiResponse exC2 (some memberAdmin) "admin-1" 55).record

/-- A valid send-response request. -/
def dtoOk : SendDto :=
  { responseStatus := some "answered"
    responseText := some "Official answer"
    selectedFilePaths := ["rfis/R-0001/response.pdf"] }

/-- An environment in which every external call succeeds. -/
def envOk : ExtEnv :=
  { tokenResult := .ok "token"
    statusResult := .ok ()
    responseResult := .ok ()
    fileResult := fun _ => .ok () }

/-- An environment in which the ACC status push fails. -/
def envStatusFail : ExtEnv :=
  { envOk with statusResult := .error "ACC status update failed" }

/-! ## Claim theorems -/

/-- C7: payloads agreeing on the seven projected fields hash identically
(whatever the order or the other fields), and payloads differing in a
projected field hash differently. -/
theorem c7_fingerprint_exactly_projected_fields (p q : AccPayload) :
    ((∀ k ∈ projectedKeys, getField p k = getField q k) →
      hashAccData p = hashAccData q)
    ∧ ((∃ k ∈ projectedKeys, getField p k ≠ getField q k) →
      hashAccData p ≠ hashAccData q) := by
  constructor
  · intro h
    have hs := h "status" (by simp [projectedKeys])
    have hd := h "dueDate" (by simp [projectedKeys])
    have ht := h "title" (by simp [projectedKeys])
    have hde := h "description" (by simp [projectedKeys])
    have hp := h "priority" (by simp [projectedKeys])
    have ha := h "assignedTo" (by simp [projectedKeys])
    have hu := h "updatedAt" (by simp [projectedKeys])
    simp only [hashAccData, RelevantData.mk.injEq]
    exact ⟨hs, hd, ht, hde, hp, ha, hu⟩
  · rintro ⟨k, hk, hne⟩ heq
    apply hne
    simp only [projectedKeys, List.mem_cons, List.mem_singleton,
      List.not_mem_nil, or_false] at hk
    rcases hk with h1 | h1 | h1 | h1 | h1 | h1 | h1 <;> subst h1
    · exact congrArg RelevantData.status heq
    · exact congrArg RelevantData.dueDate heq
    · exact congrArg RelevantData.title heq
    · exact congrArg RelevantData.description heq
    · exact congrArg RelevantData.priority heq
    · exact congrArg RelevantData.assignedTo heq
    · exact congrArg RelevantData.updatedAt heq

/-- Witness for C7 at concrete payloads: a permuted payload with an extra
field hashes identically, and changing a projected field changes the hash. -/
theorem c7_fingerprint_exactly_projected_fields_witness :
    hashAccData ⟨[("title", "T"), ("status", "open"), ("zzz", "x")]⟩
      = hashAccData ⟨[("status", "open"), ("title", "T")]⟩
    ∧ hashAccData ⟨[("title", "T"), ("status", "open"), ("zzz", "x")]⟩
      ≠ hashAccData ⟨[("status", "closed"), ("title", "T")]⟩ :=
  ⟨(c7_fingerprint_exactly_projected_fields
      ⟨[("title", "T"), ("status", "open"), ("zzz", "x")]⟩
      ⟨[("status", "open"), ("title", "T")]⟩).1 (by decide),
   (c7_fingerprint_exactly_projected_fields
      ⟨[("title", "T"), ("status", "open"), ("zzz", "x")]⟩
      ⟨[("status", "closed"), ("title", "T")]⟩).2
      ⟨"status", by decide, by decide⟩⟩

/-- C1, failing input: a record whose change flag is still unacknowledged
is re-synced with an unchanged payload (fingerprints equal); the update
writes the freshly computed value and clears the flag, so sync, not only
`acknowledgeAccChanges`, sets the flag back to false. -/
theorem c1_sync_clears_unacknowledged_change_flag :
    exC1.hasUnacknowledgedChange = true
    ∧ exC1.accDataHash = hashAccItem itemBase
    ∧ (processRfi (some exC1) itemBase 40).record.hasUnacknowledgedChange = false :=
  ⟨rfl, rfl, rfl⟩

/-- C2, failing input: re-syncing a still-unconfirmed manual response
replaces the captured payload with the latest snapshot (as claimed) but
also re-stamps `manualResponseDetectedAt` to the new sync time instead of
preserving the first detection time. -/
theorem c2_resync_restamps_detection_timestamp :
    exC2.hasManualResponse = true
    ∧ exC2.manualResponseConfirmedAt = none
    ∧ exC2.responseSentAt = none
    ∧ exC2.manualResponseDetectedAt = some 50
    ∧ (processRfi (some exC2) itemRespV2 60).record.manualResponseData
        = some { status := some "answered", text := some "Approved v2",
                 respondedBy := some "ext-user-2",
                 respondedAt := some "2026-02-02", detectedAt := 60 }
    ∧ (processRfi (some exC2) itemRespV2 60).record.manualResponseDetectedAt
        = some 60 :=
  ⟨rfl, rfl, rfl, rfl, rfl, rfl⟩

/-- C3, counterexample: on a record whose manual response was confirmed
(`manualResponseConfirmedAt` set, `responseSentAt` still null), a later
sync whose payload still carries a response text re-stamps the detection
time and replaces the captured payload, so the claim that sync leaves the
manual-response fields of a confirmed record unchanged is false. -/
theorem c3_counterexample_confirmed_record_reflagged :
    exC3.manualResponseConfirmedAt = some 55
    ∧ exC3.responseSentAt = none
    ∧ exC3.manualResponseDetectedAt = some 50
    ∧ (processRfi (some exC3) itemRespV2 60).record.manualResponseDetectedAt
        = some 60
    ∧ (processRfi (some exC3) itemRespV2 60).record.manualResponseData
        ≠ exC3.manualResponseData :=
  ⟨rfl, rfl, rfl, rfl, by decide⟩

/-- C3, amended: confirmation does not suppress the detector (only a
non-null `responseSentAt` does).  On any confirmed record whose
`responseSentAt` is still null, a sync whose payload carries a non-empty
response text re-flags the record: `hasManualResponse` stays true, the
detection timestamp is re-stamped to the sync time, and the captured
payload is replaced with the latest snapshot; the confirmation timestamp
itself is untouched. -/
theorem c3_sync_reflags_confirmed_records
    (ex : RfiRec) (item : AccItem) (now : Time) (r : AccResponse) (t : String)
    (hconf : ex.manualResponseConfirmedAt.isSome = true)
    (hresp : item.response = some r) (htext : r.text = some t)
    (hne : ¬ t = "") (hsent : ex.responseSentAt = none) :
    (processRfi (some ex) item now).record.hasManualResponse = true
    ∧ (processRfi (some ex) item now).record.manualResponseDetectedAt = some now
    ∧ (processRfi (some ex) item now).record.manualResponseData
        = some { status := jsOr r.status item.status, text := r.text,
                 respondedBy := r.respondedBy, respondedAt := r.respondedAt,
                 detectedAt := now }
    ∧ (processRfi (some ex) item now).record.manualResponseConfirmedAt
        = ex.manualResponseConfirmedAt := by
  have hpr : payloadResponse item = some r := by
    simp [payloadResponse, hresp, htext, hne]
  simp [processRfi, hpr, hsent]

/-- Witness for the amended C3 at the concrete confirmed record. -/
theorem c3_sync_reflags_confirmed_records_witness :
    (processRfi (some exC3) itemRespV2 60).record.manualResponseDetectedAt
      = some 60 :=
  (c3_sync_reflags_confirmed_records exC3 itemRespV2 60
    { status := some "answered", text := some "Approved v2",
      respondedBy := some "ext-user-2", respondedAt := some "2026-02-02" }
    "Approved v2" (by decide) rfl rfl (by decide) rfl).2.1

/-- C4, counterexample: a caller with no membership at all is rejected
before any external call, but no warning is logged for them, contrary to
the claim that every unauthorized attempt logs a warning with the actor
and role. -/
theorem c4_counterexample_no_warning_for_nonmember :
    (sendRfiResponseToAcc exBase none dtoOk envOk "user-1" 70).result
      = .error "User is not a member of this project"
    ∧ (sendRfiResponseToAcc exBase none dtoOk envOk "user-1" 70).externalCalls = []
    ∧ (sendRfiResponseToAcc exBase none dtoOk envOk "user-1" 70).warnings = [] :=
  ⟨rfl, rfl, rfl⟩

/-- C4, amended: a member whose role is not PROJECT_ADMIN and whose
canSendToAcc flag is false is rejected by all four operations before any
external call, with the record untouched and a warning carrying actor and
role; a caller with no membership is likewise rejected before any external
call with the record untouched, but without a warning. -/
theorem c4_authorization_gate
    (rfi : RfiRec) (sub : SubmittalRec) (m : Membership) (d : SendDto)
    (env : ExtEnv) (userId : String) (now : Time)
    (hrole : m.role ≠ "PROJECT_ADMIN") (hflag : m.canSendToAcc = false) :
    ((sendRfiResponseToAcc rfi (some m) d env userId now).result
        = .error "Only project admins are authorized to send responses to ACC"
      ∧ (sendRfiResponseToAcc rfi (some m) d env userId now).record = rfi
      ∧ (sendRfiResponseToAcc rfi (some m) d env userId now).externalCalls = []
      ∧ (sendRfiResponseToAcc rfi (some m) d env userId now).warnings
          = [{ userId := userId, role := m.role }])
    ∧ ((sendSubmittalResponseToAcc sub (some m) d env userId now).result
        = .error "Only project admins are authorized to send responses to ACC"
      ∧ (sendSubmittalResponseToAcc sub (some m) d env userId now).record = sub
      ∧ (sendSubmittalResponseToAcc sub (some m) d env userId now).externalCalls = []
      ∧ (sendSubmittalResponseToAcc sub (some m) d env userId now).warnings
          = [{ userId := userId, role := m.role }])
    ∧ ((confirmManualRfiResponse rfi (some m) userId now).result
        = .error "Only project admins can confirm manual responses"
      ∧ (confirmManualRfiResponse rfi (some m) userId now).record = rfi
      ∧ (confirmManualRfiResponse rfi (some m) userId now).warnings
          = [{ userId := userId, role := m.role }])
    ∧ ((confirmManualSubmittalResponse sub (some m) userId now).result
        = .error "Only project admins can confirm manual responses"
      ∧ (confirmManualSubmittalResponse sub (some m) userId now).record = sub
      ∧ (confirmManualSubmittalResponse sub (some m) userId now).warnings
          = [{ userId := userId, role := m.role }])
    ∧ ((sendRfiResponseToAcc rfi none d env userId now).result
        = .error "User is not a member of this project"
      ∧ (sendRfiResponseToAcc rfi none d env userId now).record = rfi
      ∧ (sendRfiResponseToAcc rfi none d env userId now).externalCalls = []
      ∧ (sendRfiResponseToAcc rfi none d env userId now).warnings = [])
    ∧ ((sendSubmittalResponseToAcc sub none d env userId now).result
        = .error "User is not a member of this project"
      ∧ (sendSubmittalResponseToAcc sub none d env userId now).record = sub
      ∧ (sendSubmittalResponseToAcc sub none d env userId now).externalCalls = []
      ∧ (sendSubmittalResponseToAcc sub none d env userId now).warnings = [])
    ∧ ((confirmManualRfiResponse rfi none userId now).result
        = .error "User is not a member of this project"
      ∧ (confirmManualRfiResponse rfi none userId now).record = rfi
      ∧ (confirmManualRfiResponse rfi none userId now).warnings = [])
    ∧ ((confirmManualSubmittalResponse sub none userId now).result
        = .error "User is not a member of this project"
      ∧ (confirmManualSubmittalResponse sub none userId now).record = sub
      ∧ (confirmManualSubmittalResponse sub none userId now).warnings = []) := by
  have hadm : ¬ (m.role = "PROJECT_ADMIN" ∨ m.canSendToAcc = true) := by
    simp [hrole, hflag]
  refine ⟨?_, ?_, ?_, ?_, ⟨rfl, rfl, rfl, rfl⟩, ⟨rfl, rfl, rfl, rfl⟩,
    ⟨rfl, rfl, rfl⟩, ⟨rfl, rfl, rfl⟩⟩
  · simp [sendRfiResponseToAcc, hadm]
  · simp [sendSubmittalResponseToAcc, hadm]
  · simp [confirmManualRfiResponse, hadm]
  · simp [confirmManualSubmittalResponse, hadm]

/-- Witness for the amended C4: the reviewer attempt at a concrete record
logs the actor-and-role warning. -/
theorem c4_authorization_gate_witness :
    (sendRfiResponseToAcc exBase (some memberReviewer) dtoOk envOk "user-1" 70).warnings
      = [{ userId := "user-1", role := "REVIEWER" }] :=
  (c4_authorization_gate exBase subBase memberReviewer dtoOk envOk "user-1" 70
    (by decide) rfl).1.2.2.2

/-- C5: once authorization and validation pass, a failure of any external
side effect (token fetch, status push, response post, or any single file
read/upload) aborts the whole call: the record is unchanged, a
SEND_TO_ACC_FAILED audit entry carrying the error message is written, and
the error is re-raised to the caller. -/
theorem c5_external_failure_aborts_without_local_change
    (rfi : RfiRec) (sub : SubmittalRec) (m : Membership) (d : SendDto)
    (env : ExtEnv) (userId : String) (now : Time) (e : String)
    (hadm : m.role = "PROJECT_ADMIN" ∨ m.canSendToAcc = true)
    (hst : jsFalsyStr d.responseStatus = false)
    (htx : blankText d.responseText = false)
    (hfp : d.selectedFilePaths.isEmpty = false)
    (hfail : (runExternalPhase env d.selectedFilePaths).snd = some e) :
    ((sendRfiResponseToAcc rfi (some m) d env userId now).result = .error e
      ∧ (sendRfiResponseToAcc rfi (some m) d env userId now).record = rfi
      ∧ (sendRfiResponseToAcc rfi (some m) d env userId now).audit
          = [{ userId := userId, action := "SEND_TO_ACC_FAILED",
               detail := .sendFailed e }])
    ∧ ((sendSubmittalResponseToAcc sub (some m) d env userId now).result = .error e
      ∧ (sendSubmittalResponseToAcc sub (some m) d env userId now).record = sub
      ∧ (sendSubmittalResponseToAcc sub (some m) d env userId now).audit
          = [{ userId := userId, action := "SEND_TO_ACC_FAILED",
               detail := .sendFailed e }]) := by
  rcases hrun : runExternalPhase env d.selectedFilePaths with ⟨calls, o⟩
  rw [hrun] at hfail
  simp only at hfail
  subst hfail
  constructor
  · simp [sendRfiResponseToAcc, hadm, hst, htx, hfp, hrun]
  · simp [sendSubmittalResponseToAcc, hadm, hst, htx, hfp, hrun]

/-- Witness for C5 at a concrete failing status push. -/
theorem c5_external_failure_witness :
    (sendRfiResponseToAcc exBase (some memberAdmin) dtoOk envStatusFail
      "admin-1" 70).record = exBase :=
  (c5_external_failure_aborts_without_local_change exBase subBase memberAdmin
    dtoOk envStatusFail "admin-1" 70 "ACC status update failed"
    (Or.inl rfl) (by decide) (by decide) (by decide) rfl).1.2.1

/-- C6: the sync update payload structurally contains only externally-owned
and sync-metadata columns, so merging any external payload into any
existing record leaves every internally-owned field (internal status,
response fields, deadlines, assignments, comments) unchanged, for RFIs and
Submittals alike. -/
theorem c6_sync_never_writes_internally_owned_fields :
    (∀ (ex : RfiRec) (item : AccItem) (now : Time),
      (processRfi (some ex) item now).record.internalStatus = ex.internalStatus
      ∧ (processRfi (some ex) item now).record.responseStatus = ex.responseStatus
      ∧ (processRfi (some ex) item now).record.responseText = ex.responseText
      ∧ (processRfi (some ex) item now).record.responseSentAt = ex.responseSentAt
      ∧ (processRfi (some ex) item now).record.responseSentBy = ex.responseSentBy
      ∧ (processRfi (some ex) item now).record.reviewDeadline = ex.reviewDeadline
      ∧ (processRfi (some ex) item now).record.qcDeadline = ex.qcDeadline
      ∧ (processRfi (some ex) item now).record.assignments = ex.assignments
      ∧ (processRfi (some ex) item now).record.comments = ex.comments)
    ∧ (∀ (ex : SubmittalRec) (item : AccItem) (now : Time),
      (processSubmittal (some ex) item now).record.internalStatus = ex.internalStatus
      ∧ (processSubmittal (some ex) item now).record.responseStatus = ex.responseStatus
      ∧ (processSubmittal (some ex) item now).record.responseText = ex.responseText
      ∧ (processSubmittal (some ex) item now).record.responseSentAt = ex.responseSentAt
      ∧ (processSubmittal (some ex) item now).record.responseSentBy = ex.responseSentBy
      ∧ (processSubmittal (some ex) item now).record.reviewDeadline = ex.reviewDeadline
      ∧ (processSubmittal (some ex) item now).record.qcDeadline = ex.qcDeadline
      ∧ (processSubmittal (some ex) item now).record.assignments = ex.assignments
      ∧ (processSubmittal (some ex) item now).record.comments = ex.comments) :=
  ⟨fun ex item now => ⟨rfl, rfl, rfl, rfl, rfl, rfl, rfl, rfl, rfl⟩,
   fun ex item now => ⟨rfl, rfl, rfl, rfl, rfl, rfl, rfl, rfl, rfl⟩⟩

/-- C8: the status machine refuses every transition for VIEWER, every
transition out of the terminal CLOSED state, and any REVIEWER move to
SENT_TO_ACC or CLOSED. -/
theorem c8_viewer_reviewer_closed_restrictions (cur new role : String) :
    canTransitionStatus cur new "VIEWER" = false
    ∧ canTransitionStatus "CLOSED" new role = false
    ∧ ((new = "SENT_TO_ACC" ∨ new = "CLOSED") →
        canTransitionStatus cur new "REVIEWER" = false) := by
  refine ⟨?_, ?_, fun hnew => ?_⟩
  · simp [canTransitionStatus]
  · simp [canTransitionStatus, allowedTransitions]
  · simp [canTransitionStatus, hnew]

/-- Witness for C8 at a concrete role-restricted transition. -/
theorem c8_viewer_reviewer_closed_restrictions_witness :
    canTransitionStatus "READY_FOR_RESPONSE" "SENT_TO_ACC" "REVIEWER" = false :=
  (c8_viewer_reviewer_closed_restrictions "READY_FOR_RESPONSE" "SENT_TO_ACC"
    "PROJECT_ADMIN").2.2 (Or.inl rfl)

/-- C9, counterexample: assigning a reviewer to a record without an
external due date computes no deadlines and leaves the internal status
untouched, so the claim that every assignment stores both deadlines and
forces ASSIGNED_FOR_REVIEW is false. -/
theorem c9_counterexample_assignment_without_due_date :
    (assignRfi { exBase with accDueDate := none } none "Alice Smith"
        "REVIEWER" "admin-1" 90).record.internalStatus = "UNASSIGNED"
    ∧ (assignRfi { exBase with accDueDate := none } none "Alice Smith"
        "REVIEWER" "admin-1" 90).record.reviewDeadline = none
    ∧ (assignRfi { exBase with accDueDate := none } none "Alice Smith"
        "REVIEWER" "admin-1" 90).record.qcDeadline = none :=
  ⟨rfl, rfl, rfl⟩

/-- C9, amended: when the record has an external due date, assignment
stores both internal deadlines computed by `calculateInternalDeadlines`
from the due date and the per-priority percentage configuration and forces
ASSIGNED_FOR_REVIEW, for RFIs and Submittals; with no configured rules the
percentages default to 50 and 75. -/
theorem c9_assignment_with_due_date
    (rfi : RfiRec) (sub : SubmittalRec)
    (rules : Option (List (String × DeadlineRule)))
    (userName role assignedBy : String) (now due : Time) (p : Option String)
    (hdue : rfi.accDueDate = some due) (hsdue : sub.accDueDate = some due) :
    ((assignRfi rfi rules userName role assignedBy now).record.reviewDeadline
        = some (calculateInternalDeadlines rules due rfi.priority now).fst
      ∧ (assignRfi rfi rules userName role assignedBy now).record.qcDeadline
        = some (calculateInternalDeadlines rules due rfi.priority now).snd
      ∧ (assignRfi rfi rules userName role assignedBy now).record.internalStatus
        = "ASSIGNED_FOR_REVIEW")
    ∧ ((assignSubmittal sub rules userName role assignedBy now).record.reviewDeadline
        = some (calculateInternalDeadlines rules due sub.priority now).fst
      ∧ (assignSubmittal sub rules userName role assignedBy now).record.qcDeadline
        = some (calculateInternalDeadlines rules due sub.priority now).snd
      ∧ (assignSubmittal sub rules userName role assignedBy now).record.internalStatus
        = "ASSIGNED_FOR_REVIEW")
    ∧ calculateInternalDeadlines none due p now
        = (now + (due - now) * 50 / 100, now + (due - now) * 75 / 100) := by
  refine ⟨?_, ?_, ?_⟩
  · simp [assignRfi, hdue]
  · simp [assignSubmittal, hsdue]
  · rfl

/-- Witness for the amended C9 at the concrete created record. -/
theorem c9_assignment_with_due_date_witness :
    (assignRfi exBase none "Alice Smith" "REVIEWER" "admin-1" 90).record.internalStatus
      = "ASSIGNED_FOR_REVIEW" :=
  (c9_assignment_with_due_date exBase subBase none "Alice Smith" "REVIEWER"
    "admin-1" 90 1000 none rfl rfl).1.2.2

/-- C10: when no local record exists for the (link, external id) key, the
create branch initializes the record with hasManualResponse false and no
captured payload (and no detection timestamp), whatever the incoming
payload carries, so manual-response detection can only fire on a later
sync. -/
theorem c10_new_records_never_flag_manual_response :
    (∀ (item : AccItem) (now : Time),
      (processRfi none item now).record.hasManualResponse = false
      ∧ (processRfi none item now).record.manualResponseData = none
      ∧ (processRfi none item now).record.manualResponseDetectedAt = none
      ∧ (processRfi none item now).isNew = true)
    ∧ (∀ (item : AccItem) (now : Time),
      (processSubmittal none item now).record.hasManualResponse = false
      ∧ (processSubmittal none item now).record.manualResponseData = none
      ∧ (processSubmittal none item now).record.manualResponseDetectedAt = none
      ∧ (processSubmittal none item now).isNew = true) :=
  ⟨fun item now => ⟨rfl, rfl, rfl, rfl⟩,
   fun item now => ⟨rfl, rfl, rfl, rfl⟩⟩

end ACCPM
